import Mathlib

/-!
Shallow embedding of the browser-side OCR upload/render client
(`src/frontend/app.js`) of the medical-and-charity document extraction
system, together with proofs of the client contract's properties.

JavaScript numbers that carry confidence percentages are modelled as
rationals (`ℚ`); counts as `Nat`; possibly-absent JSON fields as `Option`.
JavaScript's `x || d` default idiom is falsy on `0`, `""` and absent
fields, and is modelled by the `jsNumOr` / `jsNatOr` / `jsStrOr` helpers.
-/

set_option autoImplicit false

namespace OcrClient

universe u

variable {α : Type u}

/-- JS `x || d` for an optional numeric field: `0` and absence are falsy. -/
def jsNumOr (o : Option ℚ) (d : ℚ) : ℚ :=
  match o with
  | some x => if x = 0 then d else x
  | none => d

/-- JS `x || d` for an optional integer count field: `0` and absence are falsy. -/
def jsNatOr (o : Option Nat) (d : Nat) : Nat :=
  match o with
  | some x => if x = 0 then d else x
  | none => d

/-- JS `x || d` for an optional string field: `""` and absence are falsy. -/
def jsStrOr (o : Option String) (d : String) : String :=
  match o with
  | some s => if s = "" then d else s
  | none => d

/-- Replace every occurrence of the character `c` in the character list by
the replacement list `rep`: one global single-character regex replace,
`str.replace(/c/g, rep)` of `app.js`. -/
def replaceAll (c : Char) (rep : List Char) : List Char → List Char
  | [] => []
  | x :: xs => if x = c then rep ++ replaceAll c rep xs else x :: replaceAll c rep xs

/-- `escapeHtml` of `app.js` on character lists: replace `&` by `&amp;`
first, then `<` by `&lt;`, then `>` by `&gt;`. -/
def escapeHtmlList (s : List Char) : List Char :=
  replaceAll '>' ['&', 'g', 't', ';']
    (replaceAll '<' ['&', 'l', 't', ';']
      (replaceAll '&' ['&', 'a', 'm', 'p', ';'] s))

/-- `escapeHtml(str)` of `app.js` (lines 276-280). -/
def escapeHtml (s : String) : String :=
  String.mk (escapeHtmlList s.data)

/-- One per-page entry of the server's OCR payload (`pages[]` elements). -/
structure PageResult where
  page_number : Option Nat
  confidence : Option ℚ
  word_count : Option Nat
  text : Option String
deriving DecidableEq

/-- The nested `ocr_result` object of one document of the server response. -/
structure OcrResult where
  text : Option String
  average_confidence : Option ℚ
  confidence : Option ℚ
  page_count : Option Nat
  total_words : Option Nat
  total_characters : Option Nat
  is_scanned : Option Bool
  pages : Option (List PageResult)
deriving DecidableEq

/-- One element of the response's `results` array. -/
structure DocResult where
  ocr_result : OcrResult
deriving DecidableEq

/-- Aggregate confidence CSS tier of `renderResults` (line 180):
`conf >= 90 ? 'green' : conf >= 70 ? 'yellow' : 'red'`. -/
def aggConfClass (conf : ℚ) : String :=
  if 90 ≤ conf then "green" else if 70 ≤ conf then "yellow" else "red"

/-- Per-page confidence CSS tier of `renderPages` (line 213):
`conf >= 90 ? 'high' : conf >= 70 ? 'mid' : 'low'`. -/
def pageConfClass (conf : ℚ) : String :=
  if 90 ≤ conf then "high" else if 70 ≤ conf then "mid" else "low"

/-- The two mutually exclusive document-type badges of `renderResults`. -/
inductive DocBadge where
  | scanned
  | textBased
deriving DecidableEq

/-- Visible label of a document-type badge (lines 185-186). -/
def badgeLabel : DocBadge → String
  | DocBadge.scanned => "Scanned document — OCR applied"
  | DocBadge.textBased => "Text-based PDF — Direct extraction"

/-- Badge rendering of `renderResults` (lines 182-189): a badge is rendered
exactly when `is_scanned` is present (`!== undefined`); its value picks the
label. -/
def renderBadge (flag : Option Bool) : Option DocBadge :=
  match flag with
  | none => none
  | some b => some (if b then DocBadge.scanned else DocBadge.textBased)

/-- The rendered view of one page entry (`renderPages` loop, lines 209-237). -/
structure PageView where
  num : Nat
  conf : ℚ
  confClass : String
  words : Nat
  body : String
deriving DecidableEq

/-- One iteration of the `pages.forEach((page, i) => ...)` loop of
`renderPages`: `num = page.page_number || i + 1`,
`conf = parseFloat(page.confidence || 0)`, `words = page.word_count || 0`,
body text `escapeHtml(page.text || 'No text')`. -/
def renderPageItem (i : Nat) (page : PageResult) : PageView :=
  let conf := jsNumOr page.confidence 0
  { num := jsNatOr page.page_number (i + 1)
    conf := conf
    confClass := pageConfClass conf
    words := jsNatOr page.word_count 0
    body := escapeHtml (jsStrOr page.text "No text") }

/-- The per-page breakdown section: visibility flag plus rendered entries. -/
structure PagesSectionView where
  visible : Bool
  items : List PageView
deriving DecidableEq

/-- `renderPages(pages)` of `app.js` (lines 197-238): the list is cleared,
then the section is hidden when `!pages || pages.length <= 1`, else shown
with one rendered item per page. -/
def renderPages (pages : Option (List PageResult)) : PagesSectionView :=
  match pages with
  | none => { visible := false, items := [] }
  | some ps =>
    if ps.length ≤ 1 then { visible := false, items := [] }
    else { visible := true, items := ps.mapIdx (fun i p => renderPageItem i p) }

/-- The rendered results panel produced by `renderResults(data, elapsed)`. -/
structure ResultsView where
  resPages : Nat
  resWords : Nat
  resChars : Nat
  conf : ℚ
  confClass : String
  badge : Option DocBadge
  resText : String
  pagesSection : PagesSectionView
  elapsed : ℚ
deriving DecidableEq

/-- `renderResults(data, elapsed)` of `app.js` (lines 168-195):
`conf = parseFloat(data.average_confidence || data.confidence || 0)`,
`pages = data.page_count || 1`, `words = data.total_words || 0`,
`chars = data.total_characters || 0`, aggregate confidence class
`'meta-value ' + (conf >= 90 ? 'green' : conf >= 70 ? 'yellow' : 'red')`,
the badge of `renderBadge`, `data.text || 'No text extracted'`, and the
per-page section of `renderPages(data.pages)`. -/
def renderResults (data : OcrResult) (elapsed : ℚ) : ResultsView :=
  let conf := jsNumOr data.average_confidence (jsNumOr data.confidence 0)
  { resPages := jsNatOr data.page_count 1
    resWords := jsNatOr data.total_words 0
    resChars := jsNatOr data.total_characters 0
    conf := conf
    confClass := "meta-value " ++ aggConfClass conf
    badge := renderBadge data.is_scanned
    resText := jsStrOr data.text "No text extracted"
    pagesSection := renderPages data.pages
    elapsed := elapsed }

/-- A file of the pending list: name and size are what the client reads. -/
structure FileEntry where
  name : String
  size : Nat
deriving DecidableEq

/-- `addFiles(files)` (lines 40-43): `selectedFiles = [...selectedFiles, ...files]`. -/
def addFiles (selected files : List α) : List α :=
  selected ++ files

/-- The start index actually used by `Array.prototype.splice(start, ...)`:
a negative `start` counts from the end (clamped at `0`), a non-negative one
is clamped at the length. -/
def spliceStart (len : Nat) (start : Int) : Nat :=
  if start < 0 then (len + start).toNat else min start.toNat len

/-- `removeFile(index)` (lines 78-81): `selectedFiles.splice(index, 1)`,
removing at most one element at the splice-resolved start position. -/
def removeFile (files : List α) (index : Int) : List α :=
  let s := spliceStart files.length index
  files.take s ++ files.drop (s + 1)

/-- The three visible panels switched by `showPanel`. -/
inductive Panel where
  | empty
  | loading
  | results
deriving DecidableEq

/-- The trigger control's label: the idle "Process Document" label/icon or
the spinning "Processing..." label/icon. -/
inductive BtnLabel where
  | processDocument
  | processing
deriving DecidableEq

/-- The client's mutable state: the pending-file list, the current-result
slot, the visible panel, the trigger control, the last toast notification,
and the last rendered results view. -/
structure ClientState where
  selectedFiles : List FileEntry
  currentResult : Option OcrResult
  panel : Panel
  processBtnDisabled : Bool
  processBtnLabel : BtnLabel
  lastToast : Option String
  lastRender : Option ResultsView
deriving DecidableEq

/-- The body of an HTTP response, as the client's `res.json()` sees it:
either unparseable (the jsonMsg is the engine's parse-error message), or a
parsed object with an optional `detail` field and an optional `results`
array. -/
inductive Body where
  | unparseable (jsonMsg : String)
  | parsed (detail : Option String) (results : Option (List DocResult))
deriving DecidableEq

/-- The outcome of the `fetch` call: a transport failure carrying the raised
error's message, or an HTTP response with its `ok` flag, numeric status and
body. -/
inductive FetchResult where
  | networkError (msg : String)
  | response (ok : Bool) (status : Nat) (body : Body)
deriving DecidableEq

/-- The `catch` branch of `processFiles` (lines 154-156):
`showToast('Error: ' + err.message)` then `showPanel('empty')`. -/
def failState (st : ClientState) (msg : String) : ClientState :=
  { st with lastToast := some ("Error: " ++ msg), panel := Panel.empty }

/-- Whether `processFiles` reaches its `catch` branch for this fetch
outcome: a transport error, a non-2xx response, an unparseable 2xx body, or
a missing/empty `results` array. -/
def attemptFails (net : FetchResult) : Bool :=
  match net with
  | FetchResult.networkError _ => true
  | FetchResult.response ok _ body =>
    if ok then
      match body with
      | Body.unparseable _ => true
      | Body.parsed _ none => true
      | Body.parsed _ (some []) => true
      | Body.parsed _ (some (_ :: _)) => false
    else true

/-- `processFiles()` of `app.js` (lines 99-166) as a state transformer.
The fetch outcome `net` and the elapsed seconds are passed in as the
environment; the returned boolean records whether a network request was
issued. Empty pending list: immediate `return` before any UI change. Else:
disable the trigger, show the spinner, show the loading panel, issue the
request; a non-`ok` status throws `err.detail || 'HTTP ' + status` (the
body-parse failure is swallowed by `.catch(() => ({}))`), an `ok` response
throws its own parse error or, on a missing/empty `results`, the fixed
message; on success the first document's `ocr_result` becomes the current
result, is rendered, and the results panel is shown; the `catch` branch
toasts `'Error: ' + err.message` and shows the empty panel; the `finally`
branch re-enables the trigger and restores its idle label on both paths. -/
def processFiles (st : ClientState) (net : FetchResult) (elapsed : ℚ) :
    ClientState × Bool :=
  if st.selectedFiles.length = 0 then (st, false)
  else
    let st1 := { st with
      processBtnDisabled := true
      processBtnLabel := BtnLabel.processing
      panel := Panel.loading }
    let st2 :=
      match net with
      | FetchResult.networkError m => failState st1 m
      | FetchResult.response ok status body =>
        if ok then
          match body with
          | Body.unparseable m => failState st1 m
          | Body.parsed _ results =>
            match results with
            | some (doc :: _) =>
              { st1 with
                currentResult := some doc.ocr_result
                lastRender := some (renderResults doc.ocr_result elapsed)
                panel := Panel.results }
            | _ => failState st1 "No OCR results returned from server"
        else
          failState st1
            (match body with
             | Body.parsed (some d) _ =>
               if d = "" then "HTTP " ++ toString status else d
             | _ => "HTTP " ++ toString status)
    ({ st2 with
        processBtnDisabled := false
        processBtnLabel := BtnLabel.processDocument }, true)

/-! ## Helper lemmas -/

theorem not_mem_replaceAll_self {c : Char} {rep : List Char} (h : c ∉ rep) :
    ∀ s : List Char, c ∉ replaceAll c rep s := by
  intro s
  induction s with
  | nil => simp [replaceAll]
  | cons x xs ih =>
    simp only [replaceAll]
    split_ifs with hx
    · intro hmem
      rcases List.mem_append.mp hmem with hr | hs
      · exact h hr
      · exact ih hs
    · intro hmem
      rcases List.mem_cons.mp hmem with he | hs
      · exact hx he.symm
      · exact ih hs

theorem not_mem_replaceAll {a c : Char} {rep : List Char} (ha : a ∉ rep) :
    ∀ s : List Char, a ∉ s → a ∉ replaceAll c rep s := by
  intro s
  induction s with
  | nil => intro _; simp [replaceAll]
  | cons x xs ih =>
    intro hs
    have hxs : a ∉ xs := fun hm => hs (List.mem_cons_of_mem _ hm)
    have hax : a ≠ x := fun hm => hs (hm ▸ List.mem_cons_self _ _)
    simp only [replaceAll]
    split_ifs with hx
    · intro hmem
      rcases List.mem_append.mp hmem with hr | hss
      · exact ha hr
      · exact ih hxs hss
    · intro hmem
      rcases List.mem_cons.mp hmem with he | hss
      · exact hax he
      · exact ih hxs hss

/-! ## Claims -/

/-- C1: the escaping chain (`&` replaced by `&amp;` first, then `<` by
`&lt;`, then `>` by `&gt;`) leaves no literal `<` or `>` in its output, and
the page text inserted into a rendered page entry is exactly the escape of
the (defaulted) page text. -/
theorem escapeHtml_no_angle_brackets (s : String) :
    '<' ∉ (escapeHtml s).data ∧ '>' ∉ (escapeHtml s).data ∧
      ∀ (i : Nat) (p : PageResult),
        (renderPageItem i p).body = escapeHtml (jsStrOr p.text "No text") := by
  refine ⟨?_, ?_, fun i p => rfl⟩
  · show '<' ∉ escapeHtmlList s.data
    unfold escapeHtmlList
    exact not_mem_replaceAll (by decide) _ (not_mem_replaceAll_self (by decide) _)
  · show '>' ∉ escapeHtmlList s.data
    unfold escapeHtmlList
    exact not_mem_replaceAll_self (by decide) _

/-- C2: confidence tiering is a pure function of the numeric value with the
same thresholds for the aggregate tier (`green`/`yellow`/`red`) and the
per-page tier (`high`/`mid`/`low`): `≥90` is the good tier, `≥70 ∧ <90` the
warning tier, `<70` the critical tier; in particular 95 and 90 are good,
89.9 and 70 are warning, 69.9 and 0 are critical, and `renderResults` and
`renderPageItem` apply exactly these tier functions. -/
theorem confidence_tiering (conf : ℚ) :
    (aggConfClass conf = "green" ↔ 90 ≤ conf) ∧
    (aggConfClass conf = "yellow" ↔ 70 ≤ conf ∧ conf < 90) ∧
    (aggConfClass conf = "red" ↔ conf < 70) ∧
    (pageConfClass conf = "high" ↔ 90 ≤ conf) ∧
    (pageConfClass conf = "mid" ↔ 70 ≤ conf ∧ conf < 90) ∧
    (pageConfClass conf = "low" ↔ conf < 70) ∧
    aggConfClass 95 = "green" ∧ aggConfClass 90 = "green" ∧
    aggConfClass (899 / 10) = "yellow" ∧ aggConfClass 70 = "yellow" ∧
    aggConfClass (699 / 10) = "red" ∧ aggConfClass 0 = "red" ∧
    pageConfClass 95 = "high" ∧ pageConfClass 90 = "high" ∧
    pageConfClass (899 / 10) = "mid" ∧ pageConfClass 70 = "mid" ∧
    pageConfClass (699 / 10) = "low" ∧ pageConfClass 0 = "low" ∧
    (∀ (d : OcrResult) (e : ℚ), (renderResults d e).confClass =
      "meta-value " ++ aggConfClass (jsNumOr d.average_confidence (jsNumOr d.confidence 0))) ∧
    (∀ (i : Nat) (p : PageResult),
      (renderPageItem i p).confClass = pageConfClass (jsNumOr p.confidence 0)) := by
  refine ⟨?_, ?_, ?_, ?_, ?_, ?_, by norm_num [aggConfClass], by norm_num [aggConfClass],
    by norm_num [aggConfClass], by norm_num [aggConfClass], by norm_num [aggConfClass],
    by norm_num [aggConfClass], by norm_num [pageConfClass], by norm_num [pageConfClass],
    by norm_num [pageConfClass], by norm_num [pageConfClass], by norm_num [pageConfClass],
    by norm_num [pageConfClass], fun d e => rfl, fun i p => rfl⟩ <;>
    simp only [aggConfClass, pageConfClass] <;>
    split_ifs with h1 h2 <;> simp_all [not_le] <;> linarith

/-- C5: the per-page breakdown section is visible exactly when the page
sequence is present with strictly more than one entry; for a missing, empty
or single-entry sequence it is hidden with no items, regardless of the
page's content. -/
theorem pages_section_visibility (pages : Option (List PageResult)) :
    ((renderPages pages).visible = true ↔ ∃ ps, pages = some ps ∧ 1 < ps.length) ∧
    renderPages none = { visible := false, items := [] } ∧
    renderPages (some []) = { visible := false, items := [] } ∧
    ∀ p : PageResult, renderPages (some [p]) = { visible := false, items := [] } := by
  refine ⟨?_, rfl, rfl, fun p => rfl⟩
  cases pages with
  | none => simp [renderPages]
  | some ps =>
    simp only [renderPages]
    split_ifs with hle
    · simp
      omega
    · simp
      omega

/-- C6: the document-type badge is rendered exactly when the `is_scanned`
flag is present: `some true` gives the scanned badge, `some false` the
text-based badge, absence no badge; the two labels differ; `renderResults`
renders the badge from the payload's `is_scanned` field. -/
theorem doc_type_badge :
    renderBadge none = none ∧
    renderBadge (some true) = some DocBadge.scanned ∧
    renderBadge (some false) = some DocBadge.textBased ∧
    (∀ flag : Option Bool, (renderBadge flag).isSome ↔ flag.isSome) ∧
    badgeLabel DocBadge.scanned ≠ badgeLabel DocBadge.textBased ∧
    ∀ (d : OcrResult) (e : ℚ), (renderResults d e).badge = renderBadge d.is_scanned := by
  refine ⟨rfl, rfl, rfl, ?_, by decide, fun d e => rfl⟩
  intro flag
  cases flag <;> simp [renderBadge]

/-! Concrete client fixtures used by the closed theorems below. -/

def f0 : FileEntry := ⟨"scan0.pdf", 100⟩

def f1 : FileEntry := ⟨"scan1.pdf", 200⟩

def f2 : FileEntry := ⟨"scan2.pdf", 300⟩

/-- C7 counterexample: `-1` is out of bounds for the one-element pending
list, yet `removeFile` with index `-1` removes the last element (JS
`splice` counts negative starts from the end) — not a no-op. -/
theorem removeFile_negative_index_not_noop :
    ¬ (0 ≤ (-1 : Int) ∧ (-1 : Int) < (([f0] : List FileEntry).length : Int)) ∧
    removeFile ([f0] : List FileEntry) (-1) = [] ∧
    removeFile ([f0] : List FileEntry) (-1) ≠ [f0] := by
  refine ⟨by decide, by decide, by decide⟩

/-- C7 amended: `removeFile` is a no-op for every index at or beyond the
list length; a negative index instead counts from the end of the list, per
JS `splice` semantics, and can remove an entry. -/
theorem removeFile_index_ge_length_noop (files : List FileEntry) (index : Int)
    (h : (files.length : Int) ≤ index) : removeFile files index = files := by
  have h0 : ¬ index < 0 := by omega
  unfold removeFile spliceStart
  rw [if_neg h0, min_eq_right (by omega)]
  show files.take files.length ++ files.drop (files.length + 1) = files
  rw [List.take_length, List.drop_eq_nil_of_le (by omega), List.append_nil]

/-- Witness for the amended C7 theorem at index 5 on a one-element list. -/
theorem removeFile_index_ge_length_noop_witness :
    (([f0] : List FileEntry).length : Int) ≤ 5 ∧
    removeFile ([f0] : List FileEntry) 5 = [f0] :=
  ⟨by decide, removeFile_index_ge_length_noop [f0] 5 (by decide)⟩

/-- C8: appending files with `addFiles` keeps prior entries and order, and
`removeFile` at a valid index drops exactly the entry at that position,
shrinking the length by one and preserving the relative order of the rest
(`take i ++ drop (i+1)`, i.e. `eraseIdx i`). -/
theorem addFiles_removeFile_valid_index (files : List FileEntry) (i : Nat)
    (h : i < files.length) :
    (removeFile files (i : Int)).length = files.length - 1 ∧
    removeFile files (i : Int) = files.take i ++ files.drop (i + 1) ∧
    removeFile files (i : Int) = files.eraseIdx i ∧
    ∀ old : List FileEntry, addFiles old files = old ++ files := by
  have hs : spliceStart files.length (i : Int) = i := by
    unfold spliceStart
    rw [if_neg (by omega)]
    omega
  refine ⟨?_, ?_, ?_, fun old => rfl⟩
  · unfold removeFile
    rw [hs]
    simp only [List.length_append, List.length_take, List.length_drop]
    omega
  · unfold removeFile
    rw [hs]
  · unfold removeFile
    rw [hs, List.eraseIdx_eq_take_drop_succ]

/-- Witness for C8: three added files, removal at index 1. -/
theorem addFiles_removeFile_valid_index_witness :
    1 < ([f0, f1, f2] : List FileEntry).length ∧
    removeFile (addFiles ([] : List FileEntry) [f0, f1, f2]) (1 : Int) =
      ([f0, f1, f2] : List FileEntry).take 1 ++ ([f0, f1, f2] : List FileEntry).drop 2 :=
  ⟨by decide, (addFiles_removeFile_valid_index [f0, f1, f2] 1 (by decide)).2.1⟩

/-- The idle client state with nothing selected, used as a base fixture. -/
def stEmpty : ClientState :=
  { selectedFiles := []
    currentResult := none
    panel := Panel.empty
    processBtnDisabled := false
    processBtnLabel := BtnLabel.processDocument
    lastToast := none
    lastRender := none }

/-- An idle client state with one pending file. -/
def st0 : ClientState := { stEmpty with selectedFiles := [f0] }

/-- C4: with an empty pending list, `processFiles` returns before doing
anything: no request is issued and the whole client state — panel, pending
list, current result, button, toast — is unchanged. -/
theorem processFiles_empty_noop (st : ClientState) (net : FetchResult) (elapsed : ℚ)
    (h : st.selectedFiles = []) : processFiles st net elapsed = (st, false) := by
  unfold processFiles
  rw [if_pos (by simp [h])]

/-- Witness for C4 on the concrete empty-selection state. -/
theorem processFiles_empty_noop_witness :
    stEmpty.selectedFiles = [] ∧
    processFiles stEmpty (FetchResult.networkError "connection refused") 0 =
      (stEmpty, false) :=
  ⟨rfl, processFiles_empty_noop stEmpty _ 0 rfl⟩

/-- C9: whenever a submission attempt actually runs (non-empty pending
list), the `finally` branch leaves the trigger control re-enabled with its
idle label on every outcome — success or any failure. -/
theorem processFiles_restores_button (st : ClientState) (net : FetchResult)
    (elapsed : ℚ) (h : st.selectedFiles ≠ []) :
    (processFiles st net elapsed).1.processBtnDisabled = false ∧
    (processFiles st net elapsed).1.processBtnLabel = BtnLabel.processDocument := by
  have hlen : ¬ st.selectedFiles.length = 0 := by
    simpa [List.length_eq_zero] using h
  unfold processFiles
  rw [if_neg hlen]
  exact ⟨rfl, rfl⟩

/-- Witness for C9 on a network failure with one pending file. -/
theorem processFiles_restores_button_witness :
    st0.selectedFiles ≠ [] ∧
    (processFiles st0 (FetchResult.networkError "connection refused") 0).1.processBtnDisabled
        = false ∧
    (processFiles st0 (FetchResult.networkError "connection refused") 0).1.processBtnLabel
        = BtnLabel.processDocument :=
  ⟨by decide,
    processFiles_restores_button st0 (FetchResult.networkError "connection refused") 0
      (by decide)⟩

/-- C10: on every failing attempt — transport error, non-2xx status,
unparseable success body, or missing/empty `results` — the current-result
slot is exactly what it was before the attempt. -/
theorem processFiles_failure_preserves_currentResult (st : ClientState)
    (net : FetchResult) (elapsed : ℚ) (h : attemptFails net = true) :
    (processFiles st net elapsed).1.currentResult = st.currentResult := by
  by_cases hlen : st.selectedFiles.length = 0
  · unfold processFiles
    rw [if_pos hlen]
  · unfold processFiles
    rw [if_neg hlen]
    cases net with
    | networkError m => rfl
    | response ok status body =>
      cases ok with
      | false => rfl
      | true =>
        cases body with
        | unparseable m => rfl
        | parsed d results =>
          cases results with
          | none => rfl
          | some l =>
            cases l with
            | nil => rfl
            | cons doc rest => simp [attemptFails] at h

/-- Witness for C10 on a 500 response with one pending file. -/
theorem processFiles_failure_preserves_currentResult_witness :
    attemptFails (FetchResult.response false 500 (Body.parsed none none)) = true ∧
    (processFiles st0 (FetchResult.response false 500 (Body.parsed none none)) 0).1.currentResult
      = st0.currentResult :=
  ⟨rfl, processFiles_failure_preserves_currentResult st0 _ 0 rfl⟩

/-- C3 counterexample: a non-2xx response whose body does contain a `detail`
string — the empty one — is toasted as the HTTP-status-derived
`Error: HTTP 400`, not as `Error: ` followed by that detail string, because
the empty string is falsy in `err.detail || ...`. -/
theorem error_message_empty_detail_counterexample :
    (processFiles st0 (FetchResult.response false 400 (Body.parsed (some "") none)) 0).1.lastToast
      = some "Error: HTTP 400" ∧
    some "Error: HTTP 400" ≠ some ("Error: " ++ "") := by
  exact ⟨rfl, by decide⟩

/-- C3 amended: the failure toast is `Error: ` followed by the server's
`detail` string when the failure body contains a non-empty one, else by the
HTTP-status-derived `HTTP <status>` for a non-2xx response (also when the
body is unparseable or lacks `detail`), else by the raised error's message. -/
theorem error_message_selection (st : ClientState) (status : Nat) (d m : String)
    (elapsed : ℚ) (hne : st.selectedFiles ≠ []) (hd : d ≠ "") :
    ((processFiles st (FetchResult.response false status (Body.parsed (some d) none))
        elapsed).1.lastToast = some ("Error: " ++ d)) ∧
    ((processFiles st (FetchResult.response false status (Body.parsed none none))
        elapsed).1.lastToast = some ("Error: " ++ ("HTTP " ++ toString status))) ∧
    ((processFiles st (FetchResult.response false status (Body.unparseable m))
        elapsed).1.lastToast = some ("Error: " ++ ("HTTP " ++ toString status))) ∧
    ((processFiles st (FetchResult.networkError m) elapsed).1.lastToast
      = some ("Error: " ++ m)) := by
  have hlen : ¬ st.selectedFiles.length = 0 := by
    simpa [List.length_eq_zero] using hne
  refine ⟨?_, ?_, ?_, ?_⟩ <;> simp [processFiles, failState, hlen, hd]

/-- Witness for the amended C3 theorem: detail `file too large` on a 413
response toasts exactly `Error: file too large`. -/
theorem error_message_selection_witness :
    st0.selectedFiles ≠ [] ∧ ("file too large" : String) ≠ "" ∧
    (processFiles st0
        (FetchResult.response false 413 (Body.parsed (some "file too large") none))
        0).1.lastToast = some ("Error: " ++ "file too large") :=
  ⟨by decide, by decide,
    (error_message_selection st0 413 "file too large" "x" 0 (by decide) (by decide)).1⟩

end OcrClient
